import Mathlib

/-!
Verification of the Code Guardian orchestration workflow.

This file shallowly embeds the in-scope core of the repository:
the LangGraph test-generation workflow (`src/src/orchestrator.py`,
`src/src/models.py`, `src/src/input_handlers.py`), the GitLab
repository service (`src/src/services/gitlab_service.py`), the
LLM provider factory (`src/services/llm_factory.py`), the bug-fixer
agent (`src/agents/bug_fixer_agent.py`) and the Streamlit view's
language detector (`src/app/views/code_tester.py`).

External collaborators (the LLM provider, the GitLab REST API, the
filesystem, `json.loads`) are modelled as oracle parameters; every
function of the repository itself is translated line by line.
-/

namespace CodeGuardian

/-! ### String helpers (Python `in`, `str.replace`, truthiness) -/

/-- `matchAt pat s` is true when `pat` is an initial segment of `s`
(Python-style character-exact matching). -/
def matchAt : List Char → List Char → Bool
  | [], _ => true
  | _ :: _, [] => false
  | p :: ps, c :: cs => p == c && matchAt ps cs

/-- `occursIn pat s` is true when `pat` occurs contiguously in `s`:
the embedding of Python's `pat in s` on strings. -/
def occursIn (pat : List Char) : List Char → Bool
  | [] => matchAt pat []
  | c :: cs => matchAt pat (c :: cs) || occursIn pat cs

/-- Python `pat in s` for `String`. -/
def strContains (s pat : String) : Bool :=
  occursIn pat.data s.data

/-- Python truthiness of an optional string: `None` and `""` are falsy. -/
def truthy : Option String → Bool
  | none => false
  | some s => !(s == "")

/-- Python `str.lower()` (ASCII case folding, as all compared keywords
are ASCII). -/
def strLower (s : String) : String :=
  ⟨s.data.map Char.toLower⟩

/-- Python `str.strip()`: drops leading and trailing whitespace. -/
def pyStrip (s : String) : String :=
  ⟨((s.data.dropWhile Char.isWhitespace).reverse.dropWhile Char.isWhitespace).reverse⟩

/-- Python `s.endswith(suf)`. -/
def strEndsWith (s suf : String) : Bool :=
  matchAt suf.data.reverse s.data.reverse

/-- Python `s.split(sep)` for a one-character separator. -/
def splitCharAux (sep : Char) : List Char → List Char → List (List Char)
  | [], acc => [acc.reverse]
  | c :: cs, acc =>
    if c == sep then acc.reverse :: splitCharAux sep cs []
    else splitCharAux sep cs (c :: acc)

/-- Python `s.split(sep)` for a one-character separator. -/
def splitChar (sep : Char) (s : String) : List String :=
  (splitCharAux sep s.data []).map String.mk

/-- Fuel-indexed worker for `pyReplace`; every step consumes at least
one source character, so fuel `s.length` suffices. -/
def replaceFuel (pat repl : List Char) : Nat → List Char → List Char
  | 0, s => s
  | _ + 1, [] => []
  | fuel + 1, c :: cs =>
    if matchAt pat (c :: cs) then
      repl ++ replaceFuel pat repl fuel (cs.drop (pat.length - 1))
    else c :: replaceFuel pat repl fuel cs

/-- Python `s.replace(pat, repl)` for a non-empty pattern: leftmost
non-overlapping occurrences. -/
def pyReplace (s pat repl : String) : String :=
  if pat == "" then s
  else ⟨replaceFuel pat.data repl.data s.data.length s.data⟩

/-- Python `not x or len(x.strip()) == 0` for an optional string:
true when the field is absent or blank. -/
def blankOpt : Option String → Bool
  | none => true
  | some s => pyStrip s == ""

/-! ### Data model (`src/src/models.py`) -/

/-- `InputType` enumeration: supported input types. -/
inductive InputType where
  | text
  | file
  | gitlab
  deriving DecidableEq, Repr

/-- `InputType.value` as used in the workflow payloads. -/
def InputType.value : InputType → String
  | .text => "text"
  | .file => "file"
  | .gitlab => "gitlab"

/-- The structured dictionary assigned to `ProcessingState.final_output`
by `_format_output`. -/
inductive FinalOutput where
  | ok (input_type : String) (detected_language : Option String)
      (test_framework : Option String) (generated_tests : String)
      (coverage_notes : Option String) (processing_messages : List String)
  | failure (error : Option String) (processing_messages : List String)
  deriving DecidableEq, Repr

/-- The `success` flag of a `final_output` payload. -/
def FinalOutput.success : FinalOutput → Bool
  | .ok _ _ _ _ _ _ => true
  | .failure _ _ => false

/-- `ProcessingState`: the state object that flows through the LangGraph
workflow. Messages are modelled by their `content` strings. -/
structure ProcessingState where
  input_type : InputType
  text_input : Option String
  file_path : Option String
  gitlab_url : Option String
  is_valid : Bool
  processed_code : Option String
  detected_language : Option String
  generated_tests : Option String
  test_framework : Option String
  coverage_notes : Option String
  final_output : Option FinalOutput
  error_message : Option String
  messages : List String
  deriving DecidableEq, Repr

/-- Result object for test generation (`TestGenerationResult`). -/
structure TestGenerationResult where
  test_code : String
  framework : String
  coverage_notes : String
  deriving DecidableEq, Repr

/-- The initial state built by `generate_tests_from_text`. -/
def initTextState (t : String) : ProcessingState :=
  ⟨.text, some t, none, none, false, none, none, none, none, none, none, none, []⟩

/-- The initial state built by `generate_tests_from_file`. -/
def initFileState (p : String) : ProcessingState :=
  ⟨.file, none, some p, none, false, none, none, none, none, none, none, none, []⟩

/-- The initial state built by `generate_tests_from_gitlab`. -/
def initGitlabState (u : String) : ProcessingState :=
  ⟨.gitlab, none, none, some u, false, none, none, none, none, none, none, none, []⟩

/-! ### Input handlers (`src/src/input_handlers.py`) -/

/-- `TextHandler.detect_language`: dummy logic, always returns "python". -/
def textDetectLanguage (_code : String) : String :=
  "python"

/-- `FileHandler.detect_language_from_file`: maps the `os.path.splitext`
extension through a static table; unknown extensions yield "unknown".
The extension is the suffix starting at the last dot of the final path
component (empty when that component has no dot past its first char). -/
def splitextExt (path : String) : String :=
  let base := (splitChar '/' path).getLastD path
  let rev := base.data.reverse
  let afterDot := rev.takeWhile (fun c => !(c == '.'))
  if afterDot.length == rev.length then ""
  else
    let beforeDot := rev.drop (afterDot.length + 1)
    if beforeDot.all (fun c => c == '.') then ""
    else String.mk ('.' :: afterDot.reverse)

/-- Extension-to-language table of `FileHandler.detect_language_from_file`. -/
def extToLanguage : List (String × String) :=
  [(".py", "python"), (".java", "java"), (".js", "javascript")]

/-- Association-list lookup with default (Python `dict.get(k, d)`). -/
def lookupD (table : List (String × String)) (key dflt : String) : String :=
  match table.find? (fun kv => kv.fst == key) with
  | some kv => kv.snd
  | none => dflt

/-- `FileHandler.detect_language_from_file`. -/
def fileDetectLanguage (path : String) : String :=
  lookupD extToLanguage (splitextExt path) "unknown"

/-- `GitLabHandler.detect_primary_language`: extension-substring scan of
the combined code. -/
def gitlabDetectPrimaryLanguage (code : String) : String :=
  if strContains code ".py" then "python"
  else if strContains code ".java" then "java"
  else if strContains code ".js" || strContains code ".jsx" then "javascript"
  else if strContains code ".ts" || strContains code ".tsx" then "typescript"
  else if strContains code ".cs" then "c#"
  else if strContains code ".go" then "go"
  else "unknown"

/-- `GitLabHandler.process`: the GitLab service call is the oracle
`svc`; an `Except.error` models a raised exception, whose message the
handler embeds in a placeholder string instead of propagating. -/
def gitlabHandlerProcess (svc : String → Except String String) (gitlab_url : String) : String :=
  match svc gitlab_url with
  | .ok combined => combined
  | .error e => "# Error processing GitLab repository: " ++ e ++ "\n# URL: " ++ gitlab_url

/-! ### Orchestrator (`src/src/orchestrator.py`) -/

/-- Oracles for the external collaborators the workflow nodes call:
the two LLM-backed handler passes and the test-generation chain.
`Except.error e` models a raised exception with message `e`. -/
structure Effects where
  textProcess : String → Except String String
  fileProcess : String → Except String String
  gitlabSvc : String → Except String String
  generateTests : String → Option String → Except String TestGenerationResult

/-- `_validate_input`: checks that the field matching the declared input
type is non-empty (non-blank for text); sets `is_valid`, records the
error message on failure. -/
def validateInput (s : ProcessingState) : ProcessingState :=
  match s.input_type with
  | .text =>
    if blankOpt s.text_input then
      { s with is_valid := false
               error_message := some "Empty text input provided"
               messages := s.messages ++ ["Validation error: Empty text input provided"] }
    else
      { s with is_valid := true
               messages := s.messages ++ ["Input validation successful"] }
  | .file =>
    if truthy s.file_path then
      { s with is_valid := true
               messages := s.messages ++ ["Input validation successful"] }
    else
      { s with is_valid := false
               error_message := some "No file path provided"
               messages := s.messages ++ ["Validation error: No file path provided"] }
  | .gitlab =>
    if truthy s.gitlab_url then
      { s with is_valid := true
               messages := s.messages ++ ["Input validation successful"] }
    else
      { s with is_valid := false
               error_message := some "No GitLab URL provided"
               messages := s.messages ++ ["Validation error: No GitLab URL provided"] }

/-- `_route_by_input_type`: "error" when invalid, else the label of the
declared input type. -/
def routeByInputType (s : ProcessingState) : String :=
  if !s.is_valid then "error"
  else
    match s.input_type with
    | .text => "text"
    | .file => "file"
    | .gitlab => "gitlab"

/-- `_process_text_input`: runs `TextHandler.process` (an LLM call,
oracle `eff.textProcess`) and the dummy language detector; exceptions
are recorded in `error_message`. -/
def processTextInput (eff : Effects) (s : ProcessingState) : ProcessingState :=
  match eff.textProcess (s.text_input.getD "") with
  | .ok code =>
    { s with processed_code := some code
             detected_language := some (textDetectLanguage (s.text_input.getD ""))
             messages := s.messages ++ ["Text input processed successfully"] }
  | .error e =>
    { s with error_message := some e
             messages := s.messages ++ ["Text processing error: " ++ e] }

/-- `_process_file_input`: runs `FileHandler.process` (file read + LLM
call, oracle `eff.fileProcess`) and the extension-table detector. -/
def processFileInput (eff : Effects) (s : ProcessingState) : ProcessingState :=
  match eff.fileProcess (s.file_path.getD "") with
  | .ok code =>
    { s with processed_code := some code
             detected_language := some (fileDetectLanguage (s.file_path.getD ""))
             messages := s.messages ++ ["File input processed successfully"] }
  | .error e =>
    { s with error_message := some e
             messages := s.messages ++ ["File processing error: " ++ e] }

/-- `_process_gitlab_input`: runs `GitLabHandler.process` (which itself
never raises) and the primary-language scan. -/
def processGitlabInput (eff : Effects) (s : ProcessingState) : ProcessingState :=
  let code := gitlabHandlerProcess eff.gitlabSvc (s.gitlab_url.getD "")
  { s with processed_code := some code
           detected_language := some (gitlabDetectPrimaryLanguage code)
           messages := s.messages ++ ["GitLab repository processed successfully"] }

/-- `_generate_tests`: raises when no processed code is available, else
invokes the test-generation chain; any exception is recorded and the
node completes. -/
def generateTestsNode (eff : Effects) (s : ProcessingState) : ProcessingState :=
  if !truthy s.processed_code then
    { s with error_message := some "No processed code available for test generation"
             messages := s.messages ++
               ["Test generation error: No processed code available for test generation"] }
  else
    match eff.generateTests (s.processed_code.getD "") s.detected_language with
    | .ok r =>
      { s with generated_tests := some r.test_code
               test_framework := some r.framework
               coverage_notes := some r.coverage_notes
               messages := s.messages ++ ["Unit tests generated successfully"] }
    | .error e =>
      { s with error_message := some e
               messages := s.messages ++ ["Test generation error: " ++ e] }

/-- `_format_output`: builds the success payload when `generated_tests`
is truthy, else the failure payload from `error_message`; the payload's
message list is taken before the node's own trailing message. -/
def formatOutput (s : ProcessingState) : ProcessingState :=
  if truthy s.generated_tests then
    { s with final_output := some (.ok s.input_type.value s.detected_language
               s.test_framework (s.generated_tests.getD "") s.coverage_notes s.messages)
             messages := s.messages ++ ["Output formatted successfully"] }
  else
    { s with final_output := some (.failure s.error_message s.messages)
             messages := s.messages ++ ["Output formatted successfully"] }

/-- Nodes of the compiled LangGraph workflow; `terminal` is `END`. -/
inductive Node where
  | validate
  | processText
  | processFile
  | processGitlab
  | generate
  | format
  | terminal
  deriving DecidableEq, Repr

/-- The conditional-edge map declared after `validate_input` in
`_build_workflow`: routing labels to successor nodes ("error" maps to
`END`, as does any label outside the declared map). -/
def labelToNode (label : String) : Node :=
  if label == "text" then .processText
  else if label == "file" then .processFile
  else if label == "gitlab" then .processGitlab
  else .terminal

/-- One step of the compiled graph: applies the node body and follows
the edge declared in `_build_workflow` (conditional after `validate`,
fixed otherwise). -/
def step (eff : Effects) : Node × ProcessingState → Node × ProcessingState
  | (.validate, s) =>
    let s' := validateInput s
    (labelToNode (routeByInputType s'), s')
  | (.processText, s) => (.generate, processTextInput eff s)
  | (.processFile, s) => (.generate, processFileInput eff s)
  | (.processGitlab, s) => (.generate, processGitlabInput eff s)
  | (.generate, s) => (.format, generateTestsNode eff s)
  | (.format, s) => (.terminal, formatOutput s)
  | (.terminal, s) => (.terminal, s)

/-- Runs the graph from a node for `n` steps. -/
def stepN (eff : Effects) : Nat → Node × ProcessingState → Node × ProcessingState
  | 0, p => p
  | n + 1, p => stepN eff n (step eff p)

/-- Full invocation of the compiled app from the entry point: four steps
reach `END` on every path (validation failure parks at `terminal`). -/
def runWorkflow (eff : Effects) (s0 : ProcessingState) : ProcessingState :=
  (stepN eff 4 (.validate, s0)).snd

/-- `generate_tests_from_text`: builds the initial state, invokes the
app and returns its `final_output`. -/
def generateTestsFromText (eff : Effects) (t : String) : Option FinalOutput :=
  (runWorkflow eff (initTextState t)).final_output

/-- `generate_tests_from_file`. -/
def generateTestsFromFile (eff : Effects) (p : String) : Option FinalOutput :=
  (runWorkflow eff (initFileState p)).final_output

/-- `generate_tests_from_gitlab`. -/
def generateTestsFromGitlab (eff : Effects) (u : String) : Option FinalOutput :=
  (runWorkflow eff (initGitlabState u)).final_output

/-! ### GitLab service (`src/src/services/gitlab_service.py`) -/

/-- One entry of the repository tree returned by the GitLab API. -/
structure TreeItem where
  itemType : String
  path : String
  name : String
  deriving DecidableEq, Repr

/-- The source-extension set of `filter_source_files`. -/
def sourceExtensions : List String :=
  [".py", ".java", ".js", ".ts", ".jsx", ".tsx", ".cs", ".cpp", ".c", ".h",
   ".go", ".rs", ".php", ".rb", ".swift", ".kt", ".scala", ".m", ".mm",
   ".pl", ".sh", ".ps1", ".r", ".dart", ".lua", ".clj", ".fs", ".ml"]

/-- `filter_source_files`: keeps the paths of blob items whose lowered
name ends with one of the source extensions. -/
def filterSourceFiles (tree : List TreeItem) : List String :=
  (tree.filter (fun item =>
    item.itemType == "blob" &&
      sourceExtensions.any (fun ext => strEndsWith (strLower item.name) ext))).map
    (fun item => item.path)

/-- Default `max_files` of `get_repository_source_code`. -/
def maxFilesDefault : Nat := 50

/-- The file list actually fetched by `get_repository_source_code`: the
filtered source files, truncated to `maxFiles`. -/
def fetchedFiles (tree : List TreeItem) (maxFiles : Nat) : List String :=
  (filterSourceFiles tree).take maxFiles

/-- The `combined_code` pieces accumulated by the fetch loop of
`get_repository_source_code`: for each file whose fetch succeeds, a
file-path banner followed by the content; failed fetches are skipped.
`fetch` is the GitLab file-content oracle (`none` models a raised
fetch). -/
def combinedParts (fetch : String → Option String) : List String → List String
  | [] => []
  | f :: rest =>
    match fetch f with
    | some content =>
      ("\n# ===== File: " ++ f ++ " =====\n") :: content :: combinedParts fetch rest
    | none => combinedParts fetch rest

/-- The `combined_code` field of `get_repository_source_code`. -/
def getRepositoryCombinedCode (tree : List TreeItem) (fetch : String → Option String)
    (maxFiles : Nat) : String :=
  String.intercalate "\n" (combinedParts fetch (fetchedFiles tree maxFiles))

/-- Spec-side description of the combined blob ("concatenates all files
into a single text blob separated by file-path banners"): the
successfully fetched files paired with their contents, each rendered as
a banner naming the path followed by the content. -/
def specCombinedCode (successes : List (String × String)) : String :=
  String.intercalate "\n"
    (successes.flatMap (fun fc =>
      ["\n# ===== File: " ++ fc.fst ++ " =====\n", fc.snd]))

/-- The successfully fetched (path, content) pairs, in fetch order. -/
def successfulFetches (fetch : String → Option String) (files : List String) :
    List (String × String) :=
  files.filterMap (fun f => (fetch f).map (fun c => (f, c)))

/-! ### LLM provider factory (`src/services/llm_factory.py`) -/

/-- The environment variables the factory reads (`os.getenv`): `none`
models an unset variable. -/
structure Env where
  azureApiKey : Option String
  azureDeploymentName : Option String
  azureApiVersion : Option String
  azureEndpoint : Option String
  azureApiBase : Option String
  openaiApiKey : Option String
  openaiModelName : Option String
  deriving DecidableEq, Repr

/-- Python truthiness of `os.getenv(var)` (unset or empty is falsy). -/
def envTruthy (v : Option String) : Bool :=
  truthy v

/-- The missing-variable list computed by `_check_azure_credentials`. -/
def missingAzureVars (env : Env) : List String :=
  (if envTruthy env.azureApiKey then [] else ["AZURE_OPENAI_API_KEY"]) ++
  (if envTruthy env.azureDeploymentName then [] else ["AZURE_OPENAI_DEPLOYMENT_NAME"]) ++
  (if envTruthy env.azureApiVersion then [] else ["AZURE_OPENAI_API_VERSION"]) ++
  (if envTruthy env.azureEndpoint || envTruthy env.azureApiBase then []
   else ["AZURE_OPENAI_ENDPOINT ou AZURE_OPENAI_API_BASE"])

/-- `_check_azure_credentials`: true when the missing list is empty. -/
def checkAzureCredentials (env : Env) : Bool :=
  missingAzureVars env == []

/-- The missing-variable list computed by `_check_openai_credentials`. -/
def missingOpenaiVars (env : Env) : List String :=
  (if envTruthy env.openaiApiKey then [] else ["OPENAI_API_KEY"]) ++
  (if envTruthy env.openaiModelName then [] else ["OPENAI_MODEL_NAME"])

/-- `_check_openai_credentials`. -/
def checkOpenaiCredentials (env : Env) : Bool :=
  missingOpenaiVars env == []

/-- The chat client constructed by the factory. -/
inductive LLMClient where
  | azure (endpoint key deployment version : String)
  | openai (key model : String)
  deriving DecidableEq, Repr

/-- `_create_azure_llm` (construction succeeds in the model; the
endpoint prefers `AZURE_OPENAI_ENDPOINT` over `AZURE_OPENAI_API_BASE`). -/
def createAzureLLM (env : Env) : LLMClient :=
  let endpoint :=
    match env.azureEndpoint with
    | some e => if e == "" then env.azureApiBase.getD "" else e
    | none => env.azureApiBase.getD ""
  .azure endpoint (env.azureApiKey.getD "") (env.azureDeploymentName.getD "")
    (env.azureApiVersion.getD "")

/-- `_create_openai_llm` (model name defaults to "gpt-4"). -/
def createOpenaiLLM (env : Env) : LLMClient :=
  .openai (env.openaiApiKey.getD "")
    (match env.openaiModelName with
     | some m => if m == "" then "gpt-4" else m
     | none => "gpt-4")

/-- The fixed final paragraph of the factory's failure message, listing
both credential sets' variables. -/
def configureMsg : String :=
  "Configure pelo menos um dos seguintes conjuntos de variáveis no arquivo .env:\n" ++
  "- Azure OpenAI: AZURE_OPENAI_API_KEY, AZURE_OPENAI_API_BASE, " ++
  "AZURE_OPENAI_DEPLOYMENT_NAME, AZURE_OPENAI_API_VERSION\n" ++
  "- OpenAI padrão: OPENAI_API_KEY, OPENAI_MODEL_NAME"

/-- The `LLMInitializationError` message raised when neither credential
set is complete. -/
def neitherProviderMsg : String :=
  String.intercalate " "
    ["❌ Nenhum provedor LLM pode ser inicializado.",
     "Nenhuma credencial de LLM configurada no ambiente.",
     configureMsg]

/-- `initialize_llm_provider`: Azure first, standard OpenAI as fallback,
`LLMInitializationError` when neither credential set is complete. -/
def initializeLLMProvider (env : Env) : Except String LLMClient :=
  if checkAzureCredentials env then .ok (createAzureLLM env)
  else if checkOpenaiCredentials env then .ok (createOpenaiLLM env)
  else .error neitherProviderMsg

/-! ### Bug-fixer agent (`src/agents/bug_fixer_agent.py`) -/

/-- `BugFixRequest` (language is its enum's `.value` string). -/
structure BugFixRequest where
  code_with_bug : String
  error_description : String
  language : String
  deriving DecidableEq, Repr

/-- The JSON object `json.loads` extracts from a well-formed provider
reply; each field is `None` when its key is absent (`dict.get`). -/
structure ParsedFix where
  fixed_code : Option String
  explanation : Option String
  changes_made : Option (List String)
  prevention_tips : Option (List String)
  deriving DecidableEq, Repr

/-- Outcome of the single `self.llm.invoke` call together with the
`json.loads` attempt on its content: `raised e` models an exception from
the provider, `content raw parsed` a reply whose body is `raw` and whose
JSON parse is `parsed` (`none` on `JSONDecodeError`). -/
inductive ProviderOutcome where
  | raised (e : String)
  | content (raw : String) (parsed : Option ParsedFix)
  deriving DecidableEq, Repr

/-- `BugFixResponse`. -/
structure BugFixResponse where
  success : Bool
  fixed_code : String
  explanation : String
  changes_made : List String
  prevention_tips : List String
  processing_time : Nat
  deriving DecidableEq, Repr

/-- `BugFixerAgent.fix_bugs`: parses the provider reply, falls back to
the raw text on a JSON error, and on a provider exception returns the
`success=False` basic-correction response; `elapsed` is the measured
processing time. -/
def fixBugs (request : BugFixRequest) (outcome : ProviderOutcome) (elapsed : Nat) :
    BugFixResponse :=
  match outcome with
  | .content raw parsed =>
    match parsed with
    | some result =>
      { success := true
        fixed_code := result.fixed_code.getD request.code_with_bug
        explanation := result.explanation.getD "Código analisado pelo LLM"
        changes_made := result.changes_made.getD ["Análise realizada"]
        prevention_tips := result.prevention_tips.getD ["Revise o código regularmente"]
        processing_time := elapsed }
    | none =>
      { success := true
        fixed_code := raw
        explanation := "Correção realizada pelo LLM (resposta em texto livre)"
        changes_made := ["Análise e correção pelo LLM"]
        prevention_tips := ["Sempre teste o código após correções"]
        processing_time := elapsed }
  | .raised e =>
    { success := false
      fixed_code := pyReplace request.code_with_bug "erro" "corrigido"
      explanation := "Erro ao processar com LLM: " ++ e ++ ". Aplicada correção básica."
      changes_made := ["Correção básica aplicada devido a erro no LLM"]
      prevention_tips := ["Verifique a conectividade com o LLM", "Revise casos de teste"]
      processing_time := elapsed }

/-- The non-timing fields of a `BugFixResponse`, for idempotence
comparisons that exclude `processing_time`. -/
def BugFixResponse.stripTime (r : BugFixResponse) :
    Bool × String × String × List String × List String :=
  (r.success, r.fixed_code, r.explanation, r.changes_made, r.prevention_tips)

/-! ### Streamlit view detector (`src/app/views/code_tester.py`) -/

/-- Extension table of `CodeTesterView._detect_language`. -/
def viewLanguageMap : List (String × String) :=
  [("py", "python"), ("js", "javascript"), ("ts", "typescript"),
   ("java", "java"), ("cs", "csharp"), ("go", "go"), ("rs", "rust"),
   ("php", "php")]

/-- `CodeTesterView._detect_language`: extension lookup when a file name
is given, else keyword scan of the lowered content, else "python". -/
def viewDetectLanguage (fileName codeContent : Option String) : String :=
  if truthy fileName then
    let fn := fileName.getD ""
    let extension := strLower ((splitChar '.' fn).getLastD fn)
    lookupD viewLanguageMap extension "python"
  else if truthy codeContent then
    let code := strLower (codeContent.getD "")
    if strContains code "def " || strContains code "import " ||
        strContains code "class " then "python"
    else if strContains code "function" || strContains code "const" ||
        strContains code "let" then "javascript"
    else if strContains code "interface" || strContains code "type" then "typescript"
    else "python"
  else "python"

/-! ### Spec-side definitions and concrete sample values -/

/-- Spec-side acceptance condition of the `Validate` node, written from
the spec's words: for each declared input type, exactly the matching
field must be non-empty (non-blank text for TEXT, a set file path for
FILE, a set URL for GITLAB). Compared against `validateInput`. -/
def specAcceptedInput (s : ProcessingState) : Bool :=
  match s.input_type with
  | .text => !(blankOpt s.text_input)
  | .file => truthy s.file_path
  | .gitlab => truthy s.gitlab_url

/-- A concrete oracle bundle used by closed witnesses. -/
def sampleEffects : Effects :=
  ⟨fun c => .ok ("# generated tests\n" ++ c),
   fun _ => .error "file system unavailable",
   fun _ => .error "GitLab unreachable",
   fun c _ => .ok ⟨"def test_unit():\n    assert True", "pytest", "covers " ++ c⟩⟩

/-- A state whose declared type is TEXT but which also carries a file
path: two payload fields populated at once. -/
def overlapState : ProcessingState :=
  ⟨.text, some "x = 1", some "/tmp/app.py", none, false, none, none, none,
   none, none, none, none, []⟩

/-- A state that has reached `format_output` with generated tests. -/
def doneState : ProcessingState :=
  ⟨.text, some "x = 1", none, none, true, some "x = 1", some "python",
   some "def test_unit():\n    assert True", some "pytest", some "full",
   none, none, []⟩

/-- An environment with no LLM variable set at all. -/
def emptyEnv : Env :=
  ⟨none, none, none, none, none, none, none⟩

/-- An environment carrying only the standard OpenAI credential set. -/
def openaiOnlyEnv : Env :=
  ⟨none, none, none, none, none, some "sk-test", some "gpt-4"⟩

/-- The end-to-end bug-fix example request from the specification. -/
def zeroDivRequest : BugFixRequest :=
  ⟨"x = 1/0", "ZeroDivisionError", "python"⟩

set_option maxRecDepth 8000

/-! ### Helper lemmas -/

/-- A pattern matches at the head of itself followed by anything. -/
lemma matchAt_self_append (pat rest : List Char) : matchAt pat (pat ++ rest) = true := by
  induction pat with
  | nil => rfl
  | cons p ps ih => simp [matchAt, ih]

/-- The empty pattern occurs in every string. -/
lemma occursIn_nil (s : List Char) : occursIn [] s = true := by
  cases s <;> simp [occursIn, matchAt]

/-- A pattern occurs in any string of the form pre ++ pat ++ post. -/
lemma occursIn_append (pat pre post : List Char) :
    occursIn pat (pre ++ (pat ++ post)) = true := by
  induction pre with
  | nil =>
    cases pat with
    | nil => simpa using occursIn_nil post
    | cons p ps =>
      simp only [List.nil_append, List.cons_append, occursIn, Bool.or_eq_true]
      left
      exact matchAt_self_append (p :: ps) post
  | cons x xs ih => simp [occursIn, ih]

/-- String-level version of `occursIn_append`. -/
lemma strContains_middle (pre pat post : String) :
    strContains (pre ++ pat ++ post) pat = true := by
  unfold strContains
  rw [String.data_append, String.data_append, List.append_assoc]
  exact occursIn_append pat.data pre.data post.data

/-- Invoking the compiled workflow on a state that fails validation
parks at the validated state: the conditional edge routes straight to
`END` and no further node body runs. -/
lemma runWorkflow_of_invalid (eff : Effects) (s : ProcessingState)
    (h : (validateInput s).is_valid = false) :
    runWorkflow eff s = validateInput s := by
  have hr : routeByInputType (validateInput s) = "error" := by
    simp [routeByInputType, h]
  simp [runWorkflow, stepN, step, hr, labelToNode]

/-- The fetch loop of `get_repository_source_code` produces exactly a
banner/content pair for every successful fetch, in order. -/
lemma combinedParts_eq (fetch : String → Option String) (files : List String) :
    combinedParts fetch files =
      (successfulFetches fetch files).flatMap
        (fun fc => ["\n# ===== File: " ++ fc.fst ++ " =====\n", fc.snd]) := by
  induction files with
  | nil => rfl
  | cons f rest ih =>
    cases hf : fetch f <;>
      simp [combinedParts, successfulFetches, hf, ih, List.filterMap_cons]

/-- Every entry of the Azure missing-variable list is one of its four
possible strings. -/
lemma mem_missingAzureVars (env : Env) (v : String) (h : v ∈ missingAzureVars env) :
    v = "AZURE_OPENAI_API_KEY" ∨ v = "AZURE_OPENAI_DEPLOYMENT_NAME" ∨
    v = "AZURE_OPENAI_API_VERSION" ∨
    v = "AZURE_OPENAI_ENDPOINT ou AZURE_OPENAI_API_BASE" := by
  unfold missingAzureVars at h
  split_ifs at h <;> simp_all <;> tauto

/-- Every entry of the standard-OpenAI missing-variable list is one of
its two possible strings. -/
lemma mem_missingOpenaiVars (env : Env) (v : String) (h : v ∈ missingOpenaiVars env) :
    v = "OPENAI_API_KEY" ∨ v = "OPENAI_MODEL_NAME" := by
  unfold missingOpenaiVars at h
  split_ifs at h <;> simp_all

/-! ### Claim theorems -/

/-- Claim C1, counterexample. At the request
`BugFixRequest(code_with_bug="x = 1/0", error_description="ZeroDivisionError",
language="python")` with the provider call raising, `fix_bugs` returns
`success=False` (the claim asserts `success=True`) and a `fixed_code`
equal to the unchanged buggy line (the claim asserts a guarded
division). -/
theorem fixBugs_provider_failure_not_masked :
    (fixBugs zeroDivRequest (.raised "Connection error") 0).success = false ∧
    (fixBugs zeroDivRequest (.raised "Connection error") 0).fixed_code = "x = 1/0" := by
  refine ⟨by decide, by decide⟩

/-- Claim C1, amended. For every request and provider exception,
`fix_bugs` returns (never raises) a response with `success=False`, a
`fixed_code` that is the input code with "erro" replaced by
"corrigido", and non-empty `changes_made` and `prevention_tips`;
`success=True` is returned on both provider-success paths (JSON parsed
or free-text fallback). -/
theorem fixBugs_fallback_behavior : ∀ (req : BugFixRequest) (e : String) (t : Nat),
    ((fixBugs req (.raised e) t).success = false ∧
     (fixBugs req (.raised e) t).fixed_code = pyReplace req.code_with_bug "erro" "corrigido" ∧
     (fixBugs req (.raised e) t).changes_made ≠ [] ∧
     (fixBugs req (.raised e) t).prevention_tips ≠ []) ∧
    ∀ (raw : String) (p : Option ParsedFix),
      (fixBugs req (.content raw p) t).success = true := by
  intro req e t
  refine ⟨⟨rfl, rfl, by simp [fixBugs], by simp [fixBugs]⟩, ?_⟩
  intro raw p
  cases p <;> rfl

/-- Claim C2. For every `ProcessingState`, the validate node sets
`is_valid=True` exactly when the one field matching the declared input
type is non-empty (non-blank text for TEXT, set path for FILE, set URL
for GITLAB); in every other case it sets `is_valid=False`, records a
non-empty `error_message`, the routing function returns "error", and
the workflow run performs no further node. -/
theorem validate_accepts_exactly_matching : ∀ s : ProcessingState,
    ((validateInput s).is_valid = specAcceptedInput s) ∧
    (specAcceptedInput s = false →
      truthy (validateInput s).error_message = true ∧
      routeByInputType (validateInput s) = "error" ∧
      ∀ eff : Effects, runWorkflow eff s = validateInput s) := by
  intro s
  have hmain : (validateInput s).is_valid = specAcceptedInput s := by
    cases hty : s.input_type <;>
      simp [validateInput, specAcceptedInput, hty] <;> split_ifs <;> simp_all
  refine ⟨hmain, fun hspec => ⟨?_, ?_, ?_⟩⟩
  · cases hty : s.input_type <;> simp [specAcceptedInput, hty] at hspec <;>
      simp [validateInput, hty, hspec] <;> decide
  · have hv : (validateInput s).is_valid = false := by rw [hmain, hspec]
    simp [routeByInputType, hv]
  · intro eff
    exact runWorkflow_of_invalid eff s (by rw [hmain, hspec])

/-- Claim C2, witness: the empty-text state is rejected, records an
error, routes to the error terminal, and runs no handler. -/
theorem validate_accepts_exactly_matching_witness :
    (validateInput (initTextState "")).is_valid = specAcceptedInput (initTextState "") ∧
    truthy (validateInput (initTextState "")).error_message = true ∧
    routeByInputType (validateInput (initTextState "")) = "error" ∧
    runWorkflow sampleEffects (initTextState "") = validateInput (initTextState "") := by
  have h := validate_accepts_exactly_matching (initTextState "")
  exact ⟨h.1, (h.2 (by decide)).1, (h.2 (by decide)).2.1, (h.2 (by decide)).2.2 sampleEffects⟩

/-- Claim C3, counterexample. A state with declared type TEXT carrying
both a text input and a file path (two populated payload fields) passes
validation and is routed to the text handler, so the validate/routing
step does not enforce the exactly-one-populated-field invariant. -/
theorem multiple_fields_pass_validation :
    (validateInput overlapState).is_valid = true ∧
    truthy overlapState.text_input = true ∧
    truthy overlapState.file_path = true ∧
    routeByInputType (validateInput overlapState) = "text" ∧
    (step sampleEffects (.validate, overlapState)).fst = .processText := by
  refine ⟨by decide, by decide, by decide, by decide, by decide⟩

/-- Claim C3, amended. Validation checks only the field matching the
declared input type: it leaves all three payload fields unchanged, and
its verdict is invariant under arbitrary changes to the two
non-matching fields, so states with several populated fields can reach
downstream nodes. -/
theorem validate_checks_only_declared_field : ∀ (s : ProcessingState) (a b : Option String),
    ((validateInput s).text_input = s.text_input ∧
     (validateInput s).file_path = s.file_path ∧
     (validateInput s).gitlab_url = s.gitlab_url) ∧
    (s.input_type = .text →
      (validateInput { s with file_path := a, gitlab_url := b }).is_valid =
        (validateInput s).is_valid) ∧
    (s.input_type = .file →
      (validateInput { s with text_input := a, gitlab_url := b }).is_valid =
        (validateInput s).is_valid) ∧
    (s.input_type = .gitlab →
      (validateInput { s with text_input := a, file_path := b }).is_valid =
        (validateInput s).is_valid) := by
  intro s a b
  refine ⟨?_, ?_, ?_, ?_⟩
  · cases hty : s.input_type <;> simp [validateInput, hty] <;> split_ifs <;> simp
  all_goals
    intro hty
    simp [validateInput, hty]
    split_ifs <;> simp

/-- Claim C3, amended witness: adding a file path to a valid TEXT state
does not change the validation verdict. -/
theorem validate_checks_only_declared_field_witness :
    (validateInput { overlapState with file_path := some "/tmp/app.py", gitlab_url := none }).is_valid =
      (validateInput overlapState).is_valid := by
  have h := validate_checks_only_declared_field overlapState (some "/tmp/app.py") none
  exact h.2.1 rfl

/-- Claim C4, counterexample. The language detector the workflow uses
for text input (`TextHandler.detect_language`) returns "python" for
"function f() \x7b\x7d", not "javascript" as the claim asserts. -/
theorem workflow_detector_constant_python :
    textDetectLanguage "function f() \x7b\x7d" = "python" ∧
    "python" ≠ "javascript" := by
  refine ⟨rfl, by decide⟩

/-- Claim C4, amended. The workflow-side detector is a stub returning
"python" for every input; the keyword heuristic of the claim lives in
the Streamlit view detector, which returns "python" for
"def f(): pass" and "javascript" for "function f() \x7b\x7d". -/
theorem language_detectors_behavior :
    (∀ c : String, textDetectLanguage c = "python") ∧
    viewDetectLanguage none (some "def f(): pass") = "python" ∧
    viewDetectLanguage none (some "function f() \x7b\x7d") = "javascript" := by
  refine ⟨fun _ => rfl, by decide, by decide⟩

/-- Claim C5, counterexample. With no LLM variable set, the factory
raises, but the raised message does not contain the Azure missing-list
entry "AZURE_OPENAI_ENDPOINT ou AZURE_OPENAI_API_BASE" (nor the name
AZURE_OPENAI_ENDPOINT at all): the per-environment missing-variable
lists are not carried in full in the error. -/
theorem error_message_misses_endpoint_var :
    initializeLLMProvider emptyEnv = .error neitherProviderMsg ∧
    "AZURE_OPENAI_ENDPOINT ou AZURE_OPENAI_API_BASE" ∈ missingAzureVars emptyEnv ∧
    strContains neitherProviderMsg "AZURE_OPENAI_ENDPOINT ou AZURE_OPENAI_API_BASE" = false ∧
    strContains neitherProviderMsg "AZURE_OPENAI_ENDPOINT" = false := by
  refine ⟨rfl, by decide, by decide, by decide⟩

/-- Claim C5, amended. When the Azure set is incomplete and the
standard set is complete, the factory returns the standard OpenAI
client without constructing an Azure client; when neither is complete
it raises an error whose message names every missing variable of both
sets except the Azure endpoint entry, which appears only through its
AZURE_OPENAI_API_BASE alias in the static both-sets listing. -/
theorem provider_fallback_and_error_message : ∀ env : Env,
    (checkAzureCredentials env = false → checkOpenaiCredentials env = true →
      initializeLLMProvider env = .ok (createOpenaiLLM env)) ∧
    (checkAzureCredentials env = false → checkOpenaiCredentials env = false →
      initializeLLMProvider env = .error neitherProviderMsg ∧
      (∀ v ∈ missingOpenaiVars env, strContains neitherProviderMsg v = true) ∧
      (∀ v ∈ missingAzureVars env,
        v ≠ "AZURE_OPENAI_ENDPOINT ou AZURE_OPENAI_API_BASE" →
          strContains neitherProviderMsg v = true)) := by
  intro env
  constructor
  · intro h1 h2
    simp [initializeLLMProvider, h1, h2]
  · intro h1 h2
    refine ⟨by simp [initializeLLMProvider, h1, h2], ?_, ?_⟩
    · intro v hv
      rcases mem_missingOpenaiVars env v hv with h | h <;> subst h <;> decide
    · intro v hv hne
      rcases mem_missingAzureVars env v hv with h | h | h | h
      · subst h; decide
      · subst h; decide
      · subst h; decide
      · exact absurd h hne

/-- Claim C5, amended witness: an OpenAI-only environment yields the
standard client; the empty environment raises with a message naming
OPENAI_MODEL_NAME. -/
theorem provider_fallback_and_error_message_witness :
    checkAzureCredentials openaiOnlyEnv = false ∧
    checkOpenaiCredentials openaiOnlyEnv = true ∧
    initializeLLMProvider openaiOnlyEnv = .ok (createOpenaiLLM openaiOnlyEnv) ∧
    initializeLLMProvider emptyEnv = .error neitherProviderMsg ∧
    strContains neitherProviderMsg "OPENAI_MODEL_NAME" = true := by
  refine ⟨by decide, by decide,
    (provider_fallback_and_error_message openaiOnlyEnv).1 (by decide) (by decide), ?_, ?_⟩
  · exact ((provider_fallback_and_error_message emptyEnv).2 (by decide) (by decide)).1
  · exact ((provider_fallback_and_error_message emptyEnv).2 (by decide) (by decide)).2.1
      "OPENAI_MODEL_NAME" (by decide)

/-- Claim C6. Whenever the repository fetch raises, `GitLabHandler.process`
returns (never propagates) a string that contains both the literal
exception message and the original URL. -/
theorem gitlab_handler_embeds_error_and_url : ∀ (svc : String → Except String String)
    (url e : String), svc url = .error e →
      strContains (gitlabHandlerProcess svc url) e = true ∧
      strContains (gitlabHandlerProcess svc url) url = true := by
  intro svc url e h
  rw [gitlabHandlerProcess, h]
  constructor
  · have := strContains_middle "# Error processing GitLab repository: " e ("\n# URL: " ++ url)
    calc strContains ("# Error processing GitLab repository: " ++ e ++ "\n# URL: " ++ url) e
        = strContains ("# Error processing GitLab repository: " ++ e ++ ("\n# URL: " ++ url)) e := by
          rw [String.append_assoc]
      _ = true := this
  · have := strContains_middle ("# Error processing GitLab repository: " ++ e ++ "\n# URL: ") url ""
    calc strContains ("# Error processing GitLab repository: " ++ e ++ "\n# URL: " ++ url) url
        = strContains ("# Error processing GitLab repository: " ++ e ++ "\n# URL: " ++ url ++ "") url := by
          rw [String.append_empty]
      _ = true := this

/-- Claim C6, witness: a concrete unreachable URL. -/
theorem gitlab_handler_embeds_error_and_url_witness :
    strContains (gitlabHandlerProcess (fun _ => .error "connection refused")
      "https://gitlab.com/acme/widget") "connection refused" = true ∧
    strContains (gitlabHandlerProcess (fun _ => .error "connection refused")
      "https://gitlab.com/acme/widget") "https://gitlab.com/acme/widget" = true :=
  gitlab_handler_embeds_error_and_url (fun _ => .error "connection refused")
    "https://gitlab.com/acme/widget" "connection refused" rfl

/-- Claim C7. For every repository tree, `get_repository_source_code`
fetches at most `max_files` files (default 50), and its `combined_code`
is exactly the concatenation, over the successfully fetched files, of a
banner line naming the file path followed by the file content. -/
theorem repository_fetch_bounded_and_banners : ∀ (tree : List TreeItem)
    (fetch : String → Option String) (maxFiles : Nat),
    (fetchedFiles tree maxFiles).length ≤ maxFiles ∧
    getRepositoryCombinedCode tree fetch maxFiles =
      specCombinedCode (successfulFetches fetch (fetchedFiles tree maxFiles)) ∧
    maxFilesDefault = 50 := by
  intro tree fetch maxFiles
  refine ⟨?_, ?_, rfl⟩
  · simp [fetchedFiles, List.length_take]
  · rw [getRepositoryCombinedCode, specCombinedCode, combinedParts_eq]

/-- Claim C8. `_format_output` assigns a `success=True` payload
carrying the generated tests exactly when `generated_tests` is truthy,
and otherwise a `success=False` payload carrying the recorded error
message; in the graph its only successor is `END`, so it is always the
last node executed. -/
theorem format_output_payload_and_terminal : ∀ (eff : Effects) (s : ProcessingState),
    (truthy s.generated_tests = true →
      (formatOutput s).final_output = some (FinalOutput.ok s.input_type.value
        s.detected_language s.test_framework (s.generated_tests.getD "")
        s.coverage_notes s.messages)) ∧
    (truthy s.generated_tests = false →
      (formatOutput s).final_output = some (FinalOutput.failure s.error_message s.messages)) ∧
    ((formatOutput s).final_output.map FinalOutput.success = some (truthy s.generated_tests)) ∧
    step eff (.format, s) = (.terminal, formatOutput s) := by
  intro eff s
  by_cases h : truthy s.generated_tests = true
  · refine ⟨fun _ => ?_, fun hc => ?_, ?_, rfl⟩
    · simp [formatOutput, h]
    · rw [h] at hc; cases hc
    · simp [formatOutput, h, FinalOutput.success]
  · have h' : truthy s.generated_tests = false := by simpa using h
    refine ⟨fun hc => ?_, fun _ => ?_, ?_, rfl⟩
    · rw [h'] at hc; cases hc
    · simp [formatOutput, h']
    · simp [formatOutput, h', FinalOutput.success]

/-- Claim C8, witness: a state holding generated tests is formatted
into the success payload. -/
theorem format_output_payload_and_terminal_witness :
    (formatOutput doneState).final_output = some (FinalOutput.ok doneState.input_type.value
      doneState.detected_language doneState.test_framework (doneState.generated_tests.getD "")
      doneState.coverage_notes doneState.messages) ∧
    (formatOutput doneState).final_output.map FinalOutput.success = some true := by
  have h := format_output_payload_and_terminal sampleEffects doneState
  exact ⟨h.1 (by decide), by rw [h.2.2.1]; decide⟩

/-- Claim C9. `fix_bugs` is deterministic given the provider outcome:
two invocations with identical request and provider content agree on
every field except `processing_time`. -/
theorem fix_bugs_deterministic_modulo_time : ∀ (req : BugFixRequest)
    (outcome : ProviderOutcome) (t₁ t₂ : Nat),
    (fixBugs req outcome t₁).stripTime = (fixBugs req outcome t₂).stripTime := by
  intro req outcome t₁ t₂
  cases outcome with
  | raised e => rfl
  | content raw p => cases p <;> rfl

/-- Claim C10. For every input that fails validation, the workflow
stops at the validate node, `final_output` is never assigned, and the
public operations return `None` rather than a failure payload. -/
theorem invalid_input_yields_none : ∀ (eff : Effects) (t p u : String),
    (pyStrip t = "" →
      runWorkflow eff (initTextState t) = validateInput (initTextState t) ∧
      generateTestsFromText eff t = none) ∧
    (p = "" →
      runWorkflow eff (initFileState p) = validateInput (initFileState p) ∧
      generateTestsFromFile eff p = none) ∧
    (u = "" →
      runWorkflow eff (initGitlabState u) = validateInput (initGitlabState u) ∧
      generateTestsFromGitlab eff u = none) := by
  intro eff t p u
  refine ⟨fun ht => ?_, fun hp => ?_, fun hu => ?_⟩
  · have hv : (validateInput (initTextState t)).is_valid = false := by
      simp [validateInput, initTextState, blankOpt, ht]
    have hrun := runWorkflow_of_invalid eff _ hv
    refine ⟨hrun, ?_⟩
    show (runWorkflow eff (initTextState t)).final_output = none
    rw [hrun]
    simp [validateInput, initTextState, blankOpt, ht]
  · subst hp
    have hv : (validateInput (initFileState "")).is_valid = false := by decide
    have hrun := runWorkflow_of_invalid eff _ hv
    refine ⟨hrun, ?_⟩
    show (runWorkflow eff (initFileState "")).final_output = none
    rw [hrun]
    decide
  · subst hu
    have hv : (validateInput (initGitlabState "")).is_valid = false := by decide
    have hrun := runWorkflow_of_invalid eff _ hv
    refine ⟨hrun, ?_⟩
    show (runWorkflow eff (initGitlabState "")).final_output = none
    rw [hrun]
    decide

/-- Claim C10, witness: whitespace-only text and empty file/URL inputs
all yield `None`. -/
theorem invalid_input_yields_none_witness :
    runWorkflow sampleEffects (initTextState " ") = validateInput (initTextState " ") ∧
    generateTestsFromText sampleEffects " " = none ∧
    generateTestsFromFile sampleEffects "" = none ∧
    generateTestsFromGitlab sampleEffects "" = none := by
  have h := invalid_input_yields_none sampleEffects " " "" ""
  exact ⟨(h.1 (by decide)).1, (h.1 (by decide)).2, (h.2.1 rfl).2, (h.2.2 rfl).2⟩

end CodeGuardian
